import Mathlib

/-!
# Verification of the SolarStorm Scout propagation-metrics engine

A shallow embedding of the pure derivation functions of
`src/solarstorm_scout/spaceweather.py` (critical-frequency estimator,
D-layer absorption estimator, band-by-band condition classifier,
best-bands advisor, and the derived-value section of
`fetch_space_weather_data`), together with theorems settling the frozen
claims about them.

Modelling conventions:
* Python floats are modelled as exact rationals (`ℚ`); the one use of
  `math.sqrt` is modelled with `Real.sqrt` over `ℝ`.
* Inputs resolved by the fetch layer are modelled with `Option`
  (`none` = the `'N/A'` marker).
* The keys of the result dict of `fetch_space_weather_data` are modelled
  with `DictEntry`, which distinguishes a key that is missing from the
  dict from a key set to the `'N/A'` marker and from a key set to a
  value: the source initializes only some keys to `'N/A'` up front and
  assigns the others conditionally, so a key can be absent altogether.
* UTC hours are integers (`ℤ`), as in Python.
-/

namespace SolarstormScout

/-- Band quality classification produced by `calculate_band_conditions`
(the `quality` field of each per-band status dict).  The emoji the source
stores alongside each quality is a function of the quality alone
(`Closed`/`Poor` ↦ red, `Fair` ↦ yellow, `Good` ↦ green) and is omitted. -/
inductive Quality
  | Closed
  | Poor
  | Fair
  | Good
deriving DecidableEq

/-- `estimate_fof2_from_sfi` (spaceweather.py:28-44): estimate the critical
frequency foF2 in MHz from the Solar Flux Index,
`base_fof2 * sqrt(max(sfi_value, 50) / 100.0)` with `base_fof2 = 7.0`. -/
noncomputable def estimate_fof2_from_sfi (sfi_value : ℝ) : ℝ :=
  let base_fof2 : ℝ := 7.0
  let scale : ℝ := Real.sqrt (max sfi_value 50 / 100.0)
  base_fof2 * scale

/-- Python's `round(x, 1)` on the (irrational) foF2 estimate: round to the
nearest tenth.  Python rounds ties to even on binary floats; ties are
modelled half-up here — no claim depends on the tie behaviour. -/
noncomputable def round1 (x : ℝ) : ℚ :=
  (round (10 * x) : ℤ) / 10

/-- The `base_absorption` of `calculate_d_layer_absorption` before solar
and geomagnetic adjustment (spaceweather.py:63-73): `0.05` at night
(`|utc_hour - 12| > 6`), else `0.3 + 0.4 * (1 - hour_angle / 6.0)`. -/
def d_layer_base (utc_hour : ℤ) : ℚ :=
  let hour_angle := |utc_hour - 12|
  if hour_angle > 6 then 0.05
  else 0.3 + 0.4 * (1 - (hour_angle : ℚ) / 6.0)

/-- The `time_desc` of `calculate_d_layer_absorption`: `"Night"` when
`|utc_hour - 12| > 6`, else `"Day"`. -/
def d_layer_time_desc (utc_hour : ℤ) : String :=
  if |utc_hour - 12| > 6 then "Night" else "Day"

/-- The `base_absorption` value of `calculate_d_layer_absorption` just
before the final clamp (spaceweather.py:75-81): the base scaled by
`min(solar_flux / 150.0, 2.0)`, plus `0.2` when `k_index >= 5`. -/
def d_layer_preclamp (utc_hour : ℤ) (solar_flux k_index : ℚ) : ℚ :=
  let sfi_factor := min (solar_flux / 150.0) 2.0
  let scaled := d_layer_base utc_hour * sfi_factor
  if k_index ≥ 5 then scaled + 0.2 else scaled

/-- The description string of `calculate_d_layer_absorption`
(spaceweather.py:85-99): category thresholds 0.2 / 0.4 / 0.6 on the
clamped absorption, suffixed with the day/night tag. -/
def absorption_desc (absorption : ℚ) (time_desc : String) : String :=
  if absorption < 0.2 then "🟢 Low (" ++ time_desc ++ ")"
  else if absorption < 0.4 then "🟡 Moderate (" ++ time_desc ++ ")"
  else if absorption < 0.6 then "🟠 High (" ++ time_desc ++ ")"
  else "🔴 Very High (" ++ time_desc ++ ")"

/-- `calculate_d_layer_absorption` (spaceweather.py:47-99): D-layer
absorption factor (the pre-clamp value clamped to at most `1.0`) and its
category string. -/
def calculate_d_layer_absorption (utc_hour : ℤ) (solar_flux k_index : ℚ) :
    ℚ × String :=
  let absorption := min (d_layer_preclamp utc_hour solar_flux k_index) 1.0
  (absorption, absorption_desc absorption (d_layer_time_desc utc_hour))

/-- The fixed band table of `calculate_band_conditions`
(spaceweather.py:109-120), in source order: band name and reference
frequency in MHz.  Each band also carries a fixed description string
(`'Regional/DX at night'`, …) which the classifier copies through
unchanged; it is omitted since nothing depends on it. -/
def bands : List (String × ℚ) :=
  [("160m", 1.9), ("80m", 3.6), ("40m", 7.1), ("30m", 10.1), ("20m", 14.2),
   ("17m", 18.1), ("15m", 21.2), ("12m", 24.9), ("10m", 28.5), ("6m", 50.1)]

/-- The per-band decision body of `calculate_band_conditions`
(spaceweather.py:125-160), rules in source order: above-MUF check, foF2
margin check, low-band day/night rule, high-band solar rule, mid-band
rule. -/
def bandQuality (is_night : Bool) (fof2 muf absorption k_index : ℚ)
    (band : String) (freq : ℚ) : Quality :=
  if freq > muf then .Closed
  else if freq > fof2 * 2.5 then .Fair
  else if band = "160m" ∨ band = "80m" then
    (if is_night then .Good else .Fair)
  else if band = "15m" ∨ band = "12m" ∨ band = "10m" ∨ band = "6m" then
    (if fof2 > 7.0 ∧ k_index < 4 then .Good
     else if fof2 > 5.0 then .Fair
     else .Poor)
  else if k_index < 4 ∧ absorption < 0.5 then .Good
  else .Fair

/-- `calculate_band_conditions` (spaceweather.py:102-162): the per-band
quality classification for all ten bands, keyed by band name, with
`is_night = utc_hour < 6 or utc_hour > 18`. -/
def calculate_band_conditions (fof2 muf absorption k_index : ℚ)
    (utc_hour : ℤ) : List (String × Quality) :=
  let is_night : Bool := utc_hour < 6 || utc_hour > 18
  bands.map fun p =>
    (p.1, bandQuality is_night fof2 muf absorption k_index p.1 p.2)

/-- `get_best_bands_now` (spaceweather.py:165-185): recommended bands for
the current time, with `is_day = 6 <= utc_hour <= 18`. -/
def get_best_bands_now (utc_hour : ℤ) (fof2 : ℚ) : String :=
  let is_day := 6 ≤ utc_hour ∧ utc_hour ≤ 18
  if is_day then
    if fof2 > 8.0 then "20m, 17m, 15m, 12m"
    else if fof2 > 6.0 then "40m, 30m, 20m, 17m"
    else "40m, 30m, 20m"
  else
    if fof2 > 7.0 then "80m, 40m, 30m, 20m"
    else "80m, 40m, 30m"

/-- The overall propagation assessment of `fetch_space_weather_data`
(spaceweather.py:333-346), evaluated on the solar flux index and the
K-index value used for the absorption calculation; first match wins. -/
def propagation_tier (sfi k_idx : ℚ) : String :=
  if sfi > 150 ∧ k_idx < 3 then "🟢 Excellent"
  else if sfi > 120 ∧ k_idx < 4 then "🟢 Good"
  else if sfi > 90 ∧ k_idx < 5 then "🟡 Fair"
  else if sfi > 70 then "🟠 Poor"
  else "🔴 Very Poor"

/-- The X-ray flux classification of `fetch_space_weather_data`
(spaceweather.py:283-292), for a positive flux: the class letter by
log-decade breakpoint together with the sub-class magnitude
`flux / breakpoint` (the source formats the magnitude with one decimal
into the class string; the string formatting is omitted). -/
def xray_classification (flux : ℚ) : String × ℚ :=
  if flux ≥ 1 / 10 ^ 4 then ("X", flux * 10 ^ 4)
  else if flux ≥ 1 / 10 ^ 5 then ("M", flux * 10 ^ 5)
  else if flux ≥ 1 / 10 ^ 6 then ("C", flux * 10 ^ 6)
  else if flux ≥ 1 / 10 ^ 7 then ("B", flux * 10 ^ 7)
  else ("A", flux * 10 ^ 8)

/-- The resolved inputs of one run of `fetch_space_weather_data`: each
fetched value is either a number or `'N/A'` (`none`), and the clock
supplies the UTC hour.  The source stores the K-index as `int(...)`. -/
structure Observation where
  solar_flux : Option ℚ
  k_index : Option ℤ
  xray_flux : Option ℚ
  aurora_power : Option ℚ
  utc_hour : ℤ

/-- The state of one key of the result dict of
`fetch_space_weather_data`: the key can be missing from the dict
entirely (the source only assigns it on some paths), set to the explicit
`'N/A'` marker, or set to a value. -/
inductive DictEntry (α : Type)
  | missing
  | na
  | val (a : α)
deriving DecidableEq

/-- The output dict of `fetch_space_weather_data` restricted to the
engine's keys.  The initial dict (spaceweather.py:208-218) sets
`fof2`, `d_region_absorption`, `propagation_conditions`, `xray_class`
and `aurora_power` to `'N/A'`, and `a_index` is assigned unconditionally
(spaceweather.py:249-253); `muf_dx`, `absorption_factor`,
`band_conditions` and `best_bands_now` are only ever assigned inside the
solar-flux branch (spaceweather.py:319-356), so those keys are missing
from the dict when the solar flux is absent. -/
structure SpaceWeatherData where
  a_index : DictEntry ℤ
  xray_class : DictEntry (String × ℚ)
  aurora_power : DictEntry ℚ
  fof2 : DictEntry ℚ
  muf_dx : DictEntry ℚ
  absorption_factor : DictEntry ℚ
  d_region_absorption : DictEntry String
  propagation_conditions : DictEntry String
  band_conditions : DictEntry (List (String × Quality))
  best_bands_now : DictEntry String

/-- The derivation section of `fetch_space_weather_data`
(spaceweather.py:249-253 and 318-357) as a pure function of the resolved
observation:
* `a_index = int(k_index ** 2 * 3.3)` when the K-index is present
  (Python `int` truncates toward zero; the operand is nonnegative, so
  truncation coincides with the floor), else `'N/A'`;
* the X-ray class when a positive flux is present, else `'N/A'`;
* when the solar flux is present: `fof2 = round(estimate_fof2_from_sfi(sfi), 1)`,
  the absorption from `calculate_d_layer_absorption` with the K-index
  defaulting to `2.0` when absent, `muf_dx = round(fof2 * 4.0, 1)`
  (the band classifier receives the unrounded local `muf_dx` value),
  the overall tier, the band conditions and the best-bands string;
  when the solar flux is absent, `fof2`, `d_region_absorption` and
  `propagation_conditions` keep their initial `'N/A'`, while `muf_dx`,
  `absorption_factor`, `band_conditions` and `best_bands_now` — never
  initialized — stay missing from the dict. -/
noncomputable def fetch_derive (obs : Observation) : SpaceWeatherData :=
  let a_index : DictEntry ℤ :=
    match obs.k_index with
    | some k => .val ⌊(k : ℚ) ^ 2 * 3.3⌋
    | none => .na
  let xray_class : DictEntry (String × ℚ) :=
    match obs.xray_flux with
    | some flux => if flux > 0 then .val (xray_classification flux) else .na
    | none => .na
  let aurora_power : DictEntry ℚ :=
    match obs.aurora_power with
    | some p => .val p
    | none => .na
  match obs.solar_flux with
  | some sfi =>
      let fof2 : ℚ := round1 (estimate_fof2_from_sfi (sfi : ℝ))
      let k_val : ℚ := match obs.k_index with
        | some k => (k : ℚ)
        | none => 2.0
      let absorption := calculate_d_layer_absorption obs.utc_hour sfi k_val
      let muf_dx : ℚ := fof2 * 4.0
      { a_index := a_index
        xray_class := xray_class
        aurora_power := aurora_power
        fof2 := .val fof2
        muf_dx := .val ((round (10 * muf_dx) : ℤ) / 10)
        absorption_factor := .val absorption.1
        d_region_absorption := .val absorption.2
        propagation_conditions := .val (propagation_tier sfi k_val)
        band_conditions :=
          .val (calculate_band_conditions fof2 muf_dx absorption.1 k_val
            obs.utc_hour)
        best_bands_now := .val (get_best_bands_now obs.utc_hour fof2) }
  | none =>
      { a_index := a_index
        xray_class := xray_class
        aurora_power := aurora_power
        fof2 := .na
        muf_dx := .missing
        absorption_factor := .missing
        d_region_absorption := .na
        propagation_conditions := .na
        band_conditions := .missing
        best_bands_now := .missing }

/-! ## Theorems -/

/-- C5: `estimate_fof2_from_sfi` is total over all real inputs (it is a
function on all of `ℝ`); it is monotonically non-decreasing for inputs
`≥ 50`, and every input `< 50` maps to exactly the same output as input
`= 50`, namely `7.0 * Real.sqrt (50 / 100)`. -/
theorem fof2_estimator_monotone_and_floor :
    (∀ s s' : ℝ, 50 ≤ s → s ≤ s' →
      estimate_fof2_from_sfi s ≤ estimate_fof2_from_sfi s') ∧
    (∀ s : ℝ, s < 50 → estimate_fof2_from_sfi s = estimate_fof2_from_sfi 50) ∧
    estimate_fof2_from_sfi 50 = 7.0 * Real.sqrt (50 / 100) := by
  refine ⟨?_, ?_, ?_⟩
  · intro s s' _ hss'
    simp only [estimate_fof2_from_sfi]
    have hmax : max s 50 / 100.0 ≤ max s' 50 / 100.0 := by
      have := max_le_max hss' (le_refl (50 : ℝ))
      linarith
    exact mul_le_mul_of_nonneg_left (Real.sqrt_le_sqrt hmax) (by norm_num)
  · intro s hs
    simp only [estimate_fof2_from_sfi]
    rw [max_eq_right hs.le, max_self]
  · simp only [estimate_fof2_from_sfi]
    norm_num

/-- Witness for C5: the monotonicity and floor clauses at concrete
inputs 50 ≤ 100 and 40 < 50. -/
theorem fof2_estimator_monotone_and_floor_witness :
    estimate_fof2_from_sfi 50 ≤ estimate_fof2_from_sfi 100 ∧
    estimate_fof2_from_sfi 40 = estimate_fof2_from_sfi 50 ∧
    estimate_fof2_from_sfi 50 = 7.0 * Real.sqrt (50 / 100) :=
  ⟨fof2_estimator_monotone_and_floor.1 50 100 (by norm_num) (by norm_num),
   fof2_estimator_monotone_and_floor.2.1 40 (by norm_num),
   fof2_estimator_monotone_and_floor.2.2⟩

/-- C9: `get_best_bands_now` treats hours with `6 ≤ utc_hour ≤ 18` as
day (returning the day-branch recommendation), and in particular returns
`"20m, 17m, 15m, 12m"` for `(hour := 14, fof2 := 9.0)` and
`"80m, 40m, 30m"` for `(hour := 2, fof2 := 5.0)`. -/
theorem best_bands_day_window_and_examples :
    (∀ (utc_hour : ℤ) (fof2 : ℚ), 6 ≤ utc_hour → utc_hour ≤ 18 →
      get_best_bands_now utc_hour fof2 =
        if fof2 > 8.0 then "20m, 17m, 15m, 12m"
        else if fof2 > 6.0 then "40m, 30m, 20m, 17m"
        else "40m, 30m, 20m") ∧
    get_best_bands_now 14 9.0 = "20m, 17m, 15m, 12m" ∧
    get_best_bands_now 2 5.0 = "80m, 40m, 30m" := by
  refine ⟨?_, ?_, ?_⟩
  · intro utc_hour fof2 h6 h18
    simp only [get_best_bands_now]
    rw [if_pos ⟨h6, h18⟩]
  · norm_num [get_best_bands_now]
  · norm_num [get_best_bands_now]

/-- Witness for C9: the day-window clause applied at hour 12 with
fof2 = 7. -/
theorem best_bands_day_window_and_examples_witness :
    get_best_bands_now 12 7 = "40m, 30m, 20m, 17m" := by
  rw [best_bands_day_window_and_examples.1 12 7 (by norm_num) (by norm_num)]
  norm_num

/-- C6: `calculate_band_conditions` with `critical_frequency = 7.0`,
`MUF = 28.0`, `absorption = 0.3`, `K-index = 2`, `utc_hour = 12`
classifies the 10m band (28.5 MHz) as Closed (because 28.5 > 28.0) and
the 20m band (14.2 MHz) as Good (14.2 does not exceed 7.0 * 2.5 = 17.5,
so it falls through to the mid-band rule, which gives Good since K < 4
and absorption < 0.5). -/
theorem band_conditions_example :
    List.lookup "10m" (calculate_band_conditions 7.0 28.0 0.3 2 12) =
      some Quality.Closed ∧
    List.lookup "20m" (calculate_band_conditions 7.0 28.0 0.3 2 12) =
      some Quality.Good := by
  constructor <;>
    · norm_num [calculate_band_conditions, bands, bandQuality, List.lookup]
      decide

/-- C7: for every input and every one of the ten bands, if the band's
fixed reference frequency exceeds the MUF then `calculate_band_conditions`
classifies that band as Closed: the above-MUF rule is the first rule
checked, so no later rule can override it. -/
theorem band_closed_above_muf (fof2 muf absorption k_index : ℚ)
    (utc_hour : ℤ) (p : String × ℚ) (hp : p ∈ bands) (hmuf : p.2 > muf) :
    (p.1, Quality.Closed) ∈
      calculate_band_conditions fof2 muf absorption k_index utc_hour := by
  simp only [calculate_band_conditions]
  refine List.mem_map.mpr ⟨p, hp, ?_⟩
  simp only [bandQuality]
  rw [if_pos hmuf]

/-- Witness for C7: the 6m band (50.1 MHz) against a MUF of 20 MHz. -/
theorem band_closed_above_muf_witness :
    ("6m", Quality.Closed) ∈ calculate_band_conditions 7.0 20.0 0 2 12 :=
  band_closed_above_muf 7.0 20.0 0 2 12 ("6m", 50.1)
    (by norm_num [bands]) (by norm_num)

/-- The base absorption is strictly positive for every hour: `0.05` at
night, and at least `0.3` by day since the day branch has
`|utc_hour - 12| ≤ 6`. -/
lemma d_layer_base_pos (utc_hour : ℤ) : 0 < d_layer_base utc_hour := by
  simp only [d_layer_base]
  split_ifs with hn
  · norm_num
  · push_neg at hn
    have h6 : ((|utc_hour - 12| : ℤ) : ℚ) ≤ 6 := by exact_mod_cast hn
    linarith

/-- C3 counterexample: the claim quantifies over every finite triple, but
at `utc_hour = 12`, `solar_flux = -150`, `k_index = 0` the solar-activity
factor is `min(-1, 2) = -1`, so the absorption factor is `-0.7`, outside
`[0, 1]`. -/
theorem absorption_negative_at_negative_flux :
    (calculate_d_layer_absorption 12 (-150) 0).1 = -0.7 ∧
    (calculate_d_layer_absorption 12 (-150) 0).1 < 0 := by
  norm_num [calculate_d_layer_absorption, d_layer_preclamp, d_layer_base,
    min_def]

/-- C3 amended: for every hour and K-index and every non-negative solar
flux (the data model's solar-flux domain, §6), the absorption factor of
`calculate_d_layer_absorption` lies in `[0, 1]`, and indeed the pre-clamp
value is already `≥ 0`, so only the upper clamp at `1.0` is needed. -/
theorem absorption_in_unit_interval (utc_hour : ℤ) (solar_flux k_index : ℚ)
    (hf : 0 ≤ solar_flux) :
    0 ≤ d_layer_preclamp utc_hour solar_flux k_index ∧
    0 ≤ (calculate_d_layer_absorption utc_hour solar_flux k_index).1 ∧
    (calculate_d_layer_absorption utc_hour solar_flux k_index).1 ≤ 1 := by
  have hb := (d_layer_base_pos utc_hour).le
  have h1 : (0 : ℚ) ≤ min (solar_flux / 150.0) 2.0 :=
    le_min (by positivity) (by norm_num)
  have h2 : (0 : ℚ) ≤ d_layer_base utc_hour * min (solar_flux / 150.0) 2.0 :=
    mul_nonneg hb h1
  have hpre : 0 ≤ d_layer_preclamp utc_hour solar_flux k_index := by
    simp only [d_layer_preclamp]
    split_ifs <;> linarith
  refine ⟨hpre, ?_, ?_⟩
  · simp only [calculate_d_layer_absorption]
    exact le_min hpre (by norm_num)
  · simp only [calculate_d_layer_absorption]
    exact (min_le_right _ 1.0).trans (by norm_num)

/-- Witness for the amended C3: the bounds at noon with flux 150 and a
quiet geomagnetic field. -/
theorem absorption_in_unit_interval_witness :
    (0 : ℚ) ≤ 150 ∧
    0 ≤ d_layer_preclamp 12 150 0 ∧
    0 ≤ (calculate_d_layer_absorption 12 150 0).1 ∧
    (calculate_d_layer_absorption 12 150 0).1 ≤ 1 :=
  ⟨by norm_num, absorption_in_unit_interval 12 150 0 (by norm_num)⟩

/-- C4: with the hour fixed, the absorption factor of
`calculate_d_layer_absorption` is monotonically non-decreasing jointly in
the solar flux index and the K-index (so in particular in each of the two
separately, with the other fixed). -/
theorem absorption_monotone (utc_hour : ℤ) (f₁ f₂ k₁ k₂ : ℚ)
    (hf : f₁ ≤ f₂) (hk : k₁ ≤ k₂) :
    (calculate_d_layer_absorption utc_hour f₁ k₁).1 ≤
      (calculate_d_layer_absorption utc_hour f₂ k₂).1 := by
  have hb := (d_layer_base_pos utc_hour).le
  have hmin : min (f₁ / 150.0) 2.0 ≤ min (f₂ / 150.0) 2.0 :=
    min_le_min (by linarith) le_rfl
  have hscaled : d_layer_base utc_hour * min (f₁ / 150.0) 2.0 ≤
      d_layer_base utc_hour * min (f₂ / 150.0) 2.0 :=
    mul_le_mul_of_nonneg_left hmin hb
  have hpre : d_layer_preclamp utc_hour f₁ k₁ ≤
      d_layer_preclamp utc_hour f₂ k₂ := by
    simp only [d_layer_preclamp]
    split_ifs <;> linarith
  simp only [calculate_d_layer_absorption]
  exact min_le_min hpre le_rfl

/-- Witness for C4: flux 100 ≤ 200 and K-index 0 ≤ 6 at noon. -/
theorem absorption_monotone_witness :
    (calculate_d_layer_absorption 12 100 0).1 ≤
      (calculate_d_layer_absorption 12 200 6).1 :=
  absorption_monotone 12 100 200 0 6 (by norm_num) (by norm_num)

/-- A band can only be classified Poor through the high-band rule, whose
Poor arm additionally requires the foF2-margin rule to have failed and
`fof2 > 5.0` to be false. -/
lemma bandQuality_poor (is_night : Bool) (fof2 muf absorption k_index : ℚ)
    (band : String) (freq : ℚ)
    (h : bandQuality is_night fof2 muf absorption k_index band freq =
      Quality.Poor) :
    (band = "15m" ∨ band = "12m" ∨ band = "10m" ∨ band = "6m") ∧
      fof2 ≤ 5 := by
  simp only [bandQuality] at h
  split_ifs at h with h1 h2 h3 h4 h5 h6 h7
  exact ⟨h5, by linarith [le_of_not_lt h7]⟩

/-- C10: `calculate_band_conditions` never classifies a mid band
(40m, 30m, 20m, 17m) or a low band (160m, 80m) as Poor; whenever an
entry is classified Poor, that entry is one of the high bands
15m, 12m, 10m, 6m and the critical frequency is at most 5.0 MHz. -/
theorem poor_only_high_bands_low_fof2 (fof2 muf absorption k_index : ℚ)
    (utc_hour : ℤ) (q : String × Quality)
    (hq : q ∈ calculate_band_conditions fof2 muf absorption k_index
      utc_hour) :
    ((q.1 = "160m" ∨ q.1 = "80m" ∨ q.1 = "40m" ∨ q.1 = "30m" ∨
        q.1 = "20m" ∨ q.1 = "17m") → q.2 ≠ Quality.Poor) ∧
    (q.2 = Quality.Poor →
      (q.1 = "15m" ∨ q.1 = "12m" ∨ q.1 = "10m" ∨ q.1 = "6m") ∧
        fof2 ≤ 5) := by
  simp only [calculate_band_conditions] at hq
  obtain ⟨p, hp, rfl⟩ := List.mem_map.mp hq
  constructor
  · rintro hmid hpoor
    obtain ⟨hhigh, -⟩ := bandQuality_poor _ _ _ _ _ _ _ hpoor
    rcases hhigh with h | h | h | h <;> rw [h] at hmid <;> simp at hmid
  · exact fun hpoor => bandQuality_poor _ _ _ _ _ _ _ hpoor

/-- Witness for C10: the 20m entry produced by the mid-band Good path is
not Poor. -/
theorem poor_only_high_bands_low_fof2_witness :
    (("20m", Quality.Good) : String × Quality).2 ≠ Quality.Poor :=
  (poor_only_high_bands_low_fof2 7.0 28.0 0.3 2 12 ("20m", Quality.Good)
      (by norm_num [calculate_band_conditions, bands, bandQuality]
          decide)).1
    (by simp)

/-- C2, evaluated at the failing input: when every optional input is
unavailable and only the UTC hour is present, the returned dict carries
the explicit `'N/A'` marker for the critical frequency, the absorption
category, the overall tier, the A-index and the X-ray class — but the
MUF, absorption factor, band conditions and best-bands keys are missing
from the dict entirely (they are only ever assigned inside the
solar-flux branch), contradicting the claim that every derived field is
present and never missing. -/
theorem unavailable_inputs_leave_keys_missing (utc_hour : ℤ) :
    (fetch_derive ⟨none, none, none, none, utc_hour⟩).fof2 =
      DictEntry.na ∧
    (fetch_derive ⟨none, none, none, none, utc_hour⟩).d_region_absorption =
      DictEntry.na ∧
    (fetch_derive ⟨none, none, none, none, utc_hour⟩).propagation_conditions =
      DictEntry.na ∧
    (fetch_derive ⟨none, none, none, none, utc_hour⟩).a_index =
      DictEntry.na ∧
    (fetch_derive ⟨none, none, none, none, utc_hour⟩).xray_class =
      DictEntry.na ∧
    (fetch_derive ⟨none, none, none, none, utc_hour⟩).muf_dx =
      DictEntry.missing ∧
    (fetch_derive ⟨none, none, none, none, utc_hour⟩).absorption_factor =
      DictEntry.missing ∧
    (fetch_derive ⟨none, none, none, none, utc_hour⟩).band_conditions =
      DictEntry.missing ∧
    (fetch_derive ⟨none, none, none, none, utc_hour⟩).best_bands_now =
      DictEntry.missing :=
  ⟨rfl, rfl, rfl, rfl, rfl, rfl, rfl, rfl, rfl⟩

/-- C8: when the K-index is absent but the solar flux is present,
`fetch_derive` computes the absorption factor, the absorption category,
the overall tier and the band conditions with a substituted K-index of
`2.0` instead of marking them unavailable. -/
theorem k_index_defaults_to_two (solar_flux : ℚ)
    (xray_flux aurora_power : Option ℚ) (utc_hour : ℤ) :
    (fetch_derive ⟨some solar_flux, none, xray_flux, aurora_power,
        utc_hour⟩).absorption_factor =
      DictEntry.val (calculate_d_layer_absorption utc_hour solar_flux
        2.0).1 ∧
    (fetch_derive ⟨some solar_flux, none, xray_flux, aurora_power,
        utc_hour⟩).d_region_absorption =
      DictEntry.val (calculate_d_layer_absorption utc_hour solar_flux
        2.0).2 ∧
    (fetch_derive ⟨some solar_flux, none, xray_flux, aurora_power,
        utc_hour⟩).propagation_conditions =
      DictEntry.val (propagation_tier solar_flux 2.0) ∧
    (fetch_derive ⟨some solar_flux, none, xray_flux, aurora_power,
        utc_hour⟩).band_conditions =
      DictEntry.val (calculate_band_conditions
        (round1 (estimate_fof2_from_sfi (solar_flux : ℝ)))
        (round1 (estimate_fof2_from_sfi (solar_flux : ℝ)) * 4.0)
        (calculate_d_layer_absorption utc_hour solar_flux 2.0).1 2.0
        utc_hour) :=
  ⟨rfl, rfl, rfl, rfl⟩

/-- C1 counterexample: at K-index 3 (with flux 100 present), the code's
A-index is `int(9 * 3.3) = 29` — Python `int` truncates — while the
claimed `round(9 * 3.3)` is 30. -/
theorem a_index_truncates_not_rounds :
    (fetch_derive ⟨some 100, some 3, none, none, 12⟩).a_index =
      DictEntry.val 29 ∧
    round ((3 : ℚ) ^ 2 * 3.3) = 30 := by
  constructor
  · have h : (fetch_derive ⟨some 100, some 3, none, none, 12⟩).a_index =
        DictEntry.val ⌊((3 : ℤ) : ℚ) ^ 2 * 3.3⌋ := rfl
    rw [h]
    norm_num
  · rw [round_eq]
    norm_num

/-- C1 amended: for every present K-index value `k`, the derived A-index
equals the truncation `⌊k ^ 2 * 3.3⌋` (so `k = 3` yields 29, not 30),
and when the K-index is absent the A-index is the explicit unavailable
marker. -/
theorem a_index_floor_characterization :
    (∀ obs : Observation,
      (fetch_derive obs).a_index =
        match obs.k_index with
        | some k => DictEntry.val ⌊(k : ℚ) ^ 2 * 3.3⌋
        | none => DictEntry.na) ∧
    (fetch_derive ⟨some 100, some 3, none, none, 12⟩).a_index =
      DictEntry.val 29 := by
  constructor
  · rintro ⟨sf, ki, xf, ap, h⟩
    cases sf <;> cases ki <;> rfl
  · have h : (fetch_derive ⟨some 100, some 3, none, none, 12⟩).a_index =
        DictEntry.val ⌊((3 : ℤ) : ℚ) ^ 2 * 3.3⌋ := rfl
    rw [h]
    norm_num

end SolarstormScout
